import Mathlib

/-!
Shallow embedding of the event-generation engine of `generate_timings.py`
(gesture scheduler, note-duration integrator, note/tempo/player-order
abstractions, and the named-gesture registry), together with theorems that
settle the specification claims about it.

Modelling conventions:
* Python floats are modelled as exact rationals (`ℚ`).
* Python code that raises an exception (ZeroDivisionError, IndexError,
  KeyError, ValueError on `max([])`) is modelled by `Option`/`Except`
  results: `none` / `.error` means the Python code raises.
* `sys.exit(1)` after printing a user-facing diagnostic is modelled by the
  `PyError.userExit` constructor carrying the message; an uncaught Python
  exception carrying no user-facing diagnostic is modelled by the other
  `PyError` constructors.
-/

/-- Python `int(q)` for a rational `q`: truncation toward zero. -/
def pyInt (q : ℚ) : ℤ :=
  if 0 ≤ q then ⌊q⌋ else ⌈q⌉

/-- Python `max(list)`, `none` when the list is empty (Python raises
`ValueError` on `max([])`). -/
def pyMax : List ℚ → Option ℚ
  | [] => none
  | x :: xs =>
    match pyMax xs with
    | none => some x
    | some m => some (max x m)

/-- `REST = True` from the source: the flag passed to note constructors. -/
def REST : Bool := true

/-- A `Note` yields a number of beats and whether it is a rest
(`Note.GetBeats` / `Note.IsRest` in the source).  The concrete subclasses
(`Quarter`, `Eighth`, `ArbitraryNote`, ...) only differ in those two
values, so the class hierarchy is embedded as this record. -/
structure Note where
  beats : ℚ
  is_rest : Bool
  deriving DecidableEq

/-- `Note.GetBeats` from the source. -/
def Note.GetBeats (n : Note) : ℚ := n.beats

/-- `Note.IsRest` from the source. -/
def Note.IsRest (n : Note) : Bool := n.is_rest

/-- `ArbitraryNote(beats, is_rest)`: the number of beats given directly. -/
def ArbitraryNote (beats : ℚ) (is_rest : Bool) : Note := ⟨beats, is_rest⟩

/-- `Quarter(is_rest)`: one beat. -/
def Quarter (is_rest : Bool) : Note := ⟨1, is_rest⟩

/-- `Half(is_rest)`: two beats. -/
def Half (is_rest : Bool) : Note := ⟨2, is_rest⟩

/-- `TripletEighth(is_rest)`: `1 / 3.0` beats. -/
def TripletEighth (is_rest : Bool) : Note := ⟨1 / 3, is_rest⟩

/-- An `Event` is a player playing an instrument for a time span
(class `Event` in the source). -/
structure Event where
  player_num : ℕ
  instrument : String
  start : ℚ
  stop : ℚ
  is_rest : Bool
  deriving DecidableEq

/-- `Duration(events)` from the source: `0` for an empty list, `stop - start`
of the single event for a one-element list, and `events[-1].stop -
events[0].start` otherwise. -/
def Duration : List Event → ℚ
  | [] => 0
  | [e] => e.stop - e.start
  | e :: f :: es => ((f :: es).getLastD f).stop - e.start

/-- `Beats(notes)` from the source: the sum of the notes' beats. -/
def Beats (notes : List Note) : ℚ :=
  (notes.map Note.GetBeats).sum

/-- `FIXED_TEMPO(bpm)` from the source: the returned tempo function ignores
both the timestamp and the beat count. -/
def FIXED_TEMPO (bpm : ℚ) : ℚ → ℚ → ℚ :=
  fun _ _ => bpm

/-- The loop body of `Gesture._ComputeNoteDuration` (source lines 267-282):
`n` is the number of remaining subdivisions, `i` the current subdivision
index, `total` the accumulated seconds.  A tempo of `0` makes the Python
expression `60.0 / subdivision_tempo` raise `ZeroDivisionError`, modelled
by `none`. -/
def noteDurationLoop (beats subdivide subdivision_beat_length start_ts start_beat : ℚ)
    (tempo_fn : ℚ → ℚ → ℚ) : ℕ → ℕ → ℚ → Option ℚ
  | 0, _, total => some total
  | n + 1, i, total =>
    let beat_fraction := beats * (i : ℚ) / subdivide
    let subdivision_tempo := tempo_fn (start_ts + total) (start_beat + beat_fraction)
    if subdivision_tempo = 0 then none
    else
      noteDurationLoop beats subdivide subdivision_beat_length start_ts start_beat tempo_fn
        n (i + 1) (total + 60 / subdivision_tempo * subdivision_beat_length)

/-- `Gesture._ComputeNoteDuration(note, start_ts, start_beat, tempo_fn)`
(source lines 254-284), with the note replaced by its beat count
(`note.GetBeats()` is the only use of the note).  `subdivide = 100 * beats`;
the Python line `subdivision_beat_length = beats / float(subdivide)` raises
`ZeroDivisionError` when `subdivide == 0`, modelled by `none`; the loop runs
`int(subdivide)` times. -/
def ComputeNoteDuration (beats start_ts start_beat : ℚ) (tempo_fn : ℚ → ℚ → ℚ) : Option ℚ :=
  let subdivide : ℚ := 100 * beats
  if subdivide = 0 then none
  else
    noteDurationLoop beats subdivide (beats / subdivide) start_ts start_beat tempo_fn
      (pyInt subdivide).toNat 0 0

/-- `Gesture._GenerateEventsForPlayer(player, notes, start_ts, start_beat,
tempo_fn)` (source lines 287-301): one `Event` is appended per note — rest
notes included, with `is_rest` set from `note.IsRest()` — and the local
time/beat cursors advance by the note's duration/beats. -/
def GenerateEventsForPlayer (player : ℕ) :
    List Note → ℚ → ℚ → (ℚ → ℚ → ℚ) → Option (List Event)
  | [], _, _, _ => some []
  | note :: notes, start_ts, start_beat, tempo_fn =>
    match ComputeNoteDuration note.GetBeats start_ts start_beat tempo_fn with
    | none => none
    | some note_duration =>
      match GenerateEventsForPlayer player notes (start_ts + note_duration)
          (start_beat + note.GetBeats) tempo_fn with
      | none => none
      | some events =>
        some (Event.mk player "" start_ts (start_ts + note_duration) note.IsRest :: events)

/-- A step of a player-order function: in Python an entry of the list
returned by the travel function is either a single player id or a
list/tuple of simultaneous player ids. -/
inductive PlayerStep where
  | one (player : ℕ)
  | many (players : List ℕ)
  deriving DecidableEq

/-- Source lines 314-316: `if type(players) is not list and type(players)
is not tuple: players = [players]`. -/
def normalizeStep : PlayerStep → List ℕ
  | .one p => [p]
  | .many ps => ps

/-- `IN_ORDER(num_players)`: the players play one at a time, in order. -/
def IN_ORDER (num_players : ℕ) : List PlayerStep :=
  (List.range num_players).map .one

/-- `Gesture.GetTimeAfterPlayer(player_num, previous_player_duration)`
(source lines 249-251): the default inter-player gap, always `0`.  Its
docstring documents the second parameter as the previous player's
duration. -/
def GetTimeAfterPlayer (player_num : ℕ) (previous_player_duration : ℚ) : ℚ := 0

/-- The `Gesture` object: its `travel_function` (player-order function),
its note function `notes(step, player)`, its instrument label, and its
inter-player gap function `time_between_players` (default
`GetTimeAfterPlayer`). -/
structure Gesture where
  travel_function : ℕ → List PlayerStep
  notes : ℕ → ℕ → List Note
  instrument : String
  time_between_players : ℕ → ℚ → ℚ

/-- Source lines 328-330: set `event.instrument` on every generated event. -/
def setInstrument (instr : String) (events : List Event) : List Event :=
  events.map (fun e => Event.mk e.player_num instr e.start e.stop e.is_rest)

/-- Source line 312: `players = player_order[step % len(player_order)]`,
normalized to a list (lines 314-316).  Only called with a non-empty
`player_order` (an empty one makes `step % 0` raise in Python, handled in
`generateStep`). -/
def stepPlayers (player_order : List PlayerStep) (step : ℕ) : List ℕ :=
  normalizeStep (player_order.getD (step % player_order.length) (.one 0))

/-- Python `list.index(x)`: the index of the first occurrence of `x`
(never called with an absent `x` by the scheduler). -/
def listIndex (x : ℚ) : List ℚ → ℕ
  | [] => 0
  | y :: ys => if y = x then 0 else listIndex x ys + 1

/-- The player loop of one scheduler step (source lines 319-333): for each
player of the step, in order, generate that player's events from
`self.notes(step, player)` at the shared cursors and tag them with the
gesture's instrument.  A failure inside any player's generation aborts the
whole step (`none`). -/
def generatePlayersEvents (g : Gesture) (tempo_fn : ℚ → ℚ → ℚ) (step : ℕ)
    (start_ts start_beat : ℚ) : List ℕ → Option (List (List Event))
  | [] => some []
  | player :: players =>
    match GenerateEventsForPlayer player (g.notes step player) start_ts start_beat tempo_fn with
    | none => none
    | some events_for_player =>
      match generatePlayersEvents g tempo_fn step start_ts start_beat players with
      | none => none
      | some done => some (setInstrument g.instrument events_for_player :: done)

/-- Source lines 318-342 of `Gesture.Generate`, for one step: generate each
player's events (lines 319-333, tagging the instrument), take the duration
of each list, find the first index of the maximal duration (lines 337-338;
`max([])` raises, modelled by `none`), and advance the shared cursors
(lines 341-342).  Note that line 342 advances the beat cursor with
`Beats(self.notes(step, max_index))` — the positional index `max_index`,
not the player id `players[max_index]`.  Returns the per-player event
lists, `max_index`, and the advanced time/beat cursors. -/
def stepCore (g : Gesture) (tempo_fn : ℚ → ℚ → ℚ) (players : List ℕ) (step : ℕ)
    (start_ts start_beat : ℚ) : Option (List (List Event) × ℕ × ℚ × ℚ) :=
  match generatePlayersEvents g tempo_fn step start_ts start_beat players with
  | none => none
  | some events_for_players =>
    let durations := events_for_players.map Duration
    match pyMax durations with
    | none => none
    | some m =>
      let max_index := listIndex m durations
      some (events_for_players, max_index, start_ts + durations.getD max_index 0,
        start_beat + Beats (g.notes step max_index))

/-- One iteration of the step loop of `Gesture.Generate` (source lines
310-350): resolve the step's players, run `stepCore`, then apply the
inter-player gap (lines 349-350), where the gap function receives
`players[max_index]` and `events_for_players[max_index][-1].stop` — the
indexing `[-1]` raises `IndexError` on an empty list, modelled by `none`.
Returns the step's events and the cursors for the next step. -/
def generateStep (g : Gesture) (tempo_fn : ℚ → ℚ → ℚ) (player_order : List PlayerStep)
    (step : ℕ) (start_ts start_beat : ℚ) : Option (List Event × ℚ × ℚ) :=
  match player_order with
  | [] => none
  | p0 :: rest =>
    let players := stepPlayers (p0 :: rest) step
    match stepCore g tempo_fn players step start_ts start_beat with
    | none => none
    | some (events_for_players, max_index, ts1, beat1) =>
      match (events_for_players.getD max_index []).getLast? with
      | none => none
      | some last_event =>
        some (events_for_players.flatten,
          ts1 + g.time_between_players (players.getD max_index 0) last_event.stop, beat1)

/-- The step loop of `Gesture.Generate`: `n` steps remain, `step` is the
current step index, `events` the accumulated event list. -/
def generateSteps (g : Gesture) (tempo_fn : ℚ → ℚ → ℚ) (player_order : List PlayerStep) :
    ℕ → ℕ → List Event → ℚ → ℚ → Option (List Event × ℚ × ℚ)
  | 0, _, events, start_ts, start_beat => some (events, start_ts, start_beat)
  | n + 1, step, events, start_ts, start_beat =>
    match generateStep g tempo_fn player_order step start_ts start_beat with
    | none => none
    | some (step_events, ts2, beat2) =>
      generateSteps g tempo_fn player_order n (step + 1) (events ++ step_events) ts2 beat2

/-- `Gesture.Generate(num_players, steps, tempo_fn, start_ts)` (source
lines 304-352): the player order is computed once, the beat cursor starts
at `0`, and the accumulated event list is returned. -/
def Gesture.Generate (g : Gesture) (num_players steps : ℕ) (tempo_fn : ℚ → ℚ → ℚ)
    (start_ts : ℚ) : Option (List Event) :=
  (generateSteps g tempo_fn (g.travel_function num_players) steps 0 [] start_ts 0).map
    (fun r => r.1)

/-- `SINGLE_PLAYER(player)` (source lines 15-17): the inner
`PlayerFunction` is defined but never returned, so the Python function
falls off its end and returns `None` — modelled as `none`. -/
def SINGLE_PLAYER (player : ℕ) : Option (ℕ → List ℕ) :=
  let PlayerFunction : ℕ → List ℕ := fun _ => [player]
  none

/-- How a Python-level failure surfaces to the user: `userExit` is
`print <descriptive message>` followed by `sys.exit(1)`; `keyError` and
`indexError` are uncaught exceptions (fatal, but with only a traceback,
no user-facing diagnostic); `runtimeError` stands for any other
exception propagating out of the scheduler. -/
inductive PyError where
  | userExit (msg : String)
  | keyError (key : String)
  | indexError
  | runtimeError
  deriving DecidableEq

/-- Whether a result is the `print` + `sys.exit(1)` path, i.e. a fatal
failure carrying a descriptive user-facing diagnostic. -/
def isUserExit {α : Type} : Except PyError α → Bool
  | .error (.userExit _) => true
  | _ => false

/-- The per-play record stored in the global `gesture_infos` dict. -/
structure GestureInfo where
  start_time : ℚ
  end_time : ℚ
  duration : ℚ
  deriving DecidableEq

/-- The global `gesture_infos` dict, as an association list (keys are kept
unique by `PLAY_GESTURE`, so `List.lookup` matches dict lookup). -/
abbrev GestureInfos := List (String × GestureInfo)

/-- `WHEN_DONE_PLAYING(play_id)` (source lines 581-602): checks membership
first and exits with a long descriptive diagnostic when the play id is
unknown; otherwise returns the recorded end time. -/
def WHEN_DONE_PLAYING (gesture_infos : GestureInfos) (play_id : String) : Except PyError ℚ :=
  match gesture_infos.lookup play_id with
  | none =>
    .error (.userExit ("Error: You asked to play a gesture when " ++ play_id ++
      " was done, but no gesture play named " ++ play_id ++ " has happened yet."))
  | some info => .ok info.end_time

/-- `GESTURE_END(play_id)` (source lines 604-605). -/
def GESTURE_END (gesture_infos : GestureInfos) (play_id : String) : Except PyError ℚ :=
  WHEN_DONE_PLAYING gesture_infos play_id

/-- `AT_THE_SAME_TIME_AS(play_id)` (source lines 613-615): no membership
check — `gesture_infos[play_id]` raises an uncaught `KeyError` when the
play id is unknown. -/
def AT_THE_SAME_TIME_AS (gesture_infos : GestureInfos) (play_id : String) : Except PyError ℚ :=
  match gesture_infos.lookup play_id with
  | none => .error (.keyError play_id)
  | some info => .ok info.start_time

/-- `GESTURE_START(play_id)` (source lines 617-618). -/
def GESTURE_START (gesture_infos : GestureInfos) (play_id : String) : Except PyError ℚ :=
  AT_THE_SAME_TIME_AS gesture_infos play_id

/-- `DURATION_OF(play_id)` (source lines 620-622): no membership check —
`gesture_infos[play_id]` raises an uncaught `KeyError` when the play id is
unknown. -/
def DURATION_OF (gesture_infos : GestureInfos) (play_id : String) : Except PyError ℚ :=
  match gesture_infos.lookup play_id with
  | none => .error (.keyError play_id)
  | some info => .ok info.duration

/-- Source lines 630-631: `if not play_id: play_id =
"unnamed_gesture_play_%d" % (len(gesture_infos))` — the empty string is the
only falsy value a string argument can take. -/
def effectivePlayId (gesture_infos : GestureInfos) (play_id : String) : String :=
  if play_id = "" then "unnamed_gesture_play_" ++ toString gesture_infos.length else play_id

/-- `PLAY_GESTURE(gesture, start_time, player_steps, tempo, play_id)`
(source lines 624-660): resolve the play id (auto-generating one when the
argument is empty), exit with a diagnostic on a duplicate id, run the
scheduler, then record `start_time = events[0].start`, `end_time =
events[0].start + Duration(events)` and `duration = Duration(events)` in
the registry.  `events[0]` raises `IndexError` on an empty event list, and
an exception inside `Generate` propagates (`runtimeError`).  The
visualization output, the `all_instruments` list and the running
`piece_length` maximum are outside the modelled state; the returned value
is the updated registry. -/
def PLAY_GESTURE (num_players : ℕ) (gesture_infos : GestureInfos) (gesture : Gesture)
    (start_time : ℚ) (player_steps : ℕ) (tempo : ℚ → ℚ → ℚ) (play_id : String) :
    Except PyError GestureInfos :=
  let pid := effectivePlayId gesture_infos play_id
  if (gesture_infos.lookup pid).isSome then
    .error (.userExit ("Error: There is already a gesture with the play_id " ++ pid ++ "."))
  else
    match gesture.Generate num_players player_steps tempo start_time with
    | none => .error .runtimeError
    | some [] => .error .indexError
    | some (e0 :: es) =>
      .ok (gesture_infos ++
        [(pid, GestureInfo.mk e0.start (e0.start + Duration (e0 :: es)) (Duration (e0 :: es)))])

/-- A one-player gesture whose only note is a quarter rest: player order
`[0]`, `notes(step, player) = [Quarter(REST)]`, instrument `"drum"`,
default gap function. -/
def gestureRest : Gesture :=
  Gesture.mk (fun _ => [.one 0]) (fun _ _ => [Quarter REST]) "drum" GetTimeAfterPlayer

/-- A gesture whose single step is played by player 1 alone, and whose note
function depends on the player id: player 1 gets one quarter note, every
other player id one half note.  Default gap function. -/
def gestureIndexBeat : Gesture :=
  Gesture.mk (fun _ => [.one 1]) (fun _ p => if p = 1 then [Quarter false] else [Half false])
    "" GetTimeAfterPlayer

/-- A one-player quarter-note gesture whose inter-player gap function
returns its second argument, exposing what the scheduler passes there. -/
def gestureGapProbe : Gesture :=
  Gesture.mk (fun _ => [.one 0]) (fun _ _ => [Quarter false]) "" (fun _ d => d)

/-- A one-player gesture whose note function returns the empty list for
every step and player. -/
def gestureEmptyNotes : Gesture :=
  Gesture.mk (fun _ => [.one 0]) (fun _ _ => []) "" GetTimeAfterPlayer

/-- A plain one-player quarter-note gesture with instrument `"g"`. -/
def gestureQuarter : Gesture :=
  Gesture.mk (fun _ => [.one 0]) (fun _ _ => [Quarter false]) "g" GetTimeAfterPlayer

set_option maxRecDepth 8000

/-- The integrator loop under a tempo function that is constantly `v`
accumulates exactly `n` equal slices of `60 / v * subdivision_beat_length`
seconds. -/
lemma noteDurationLoop_const (beats subdivide sbl start_ts start_beat v : ℚ)
    (tempo_fn : ℚ → ℚ → ℚ) (htf : ∀ a b, tempo_fn a b = v) (hv : v ≠ 0) :
    ∀ (n i : ℕ) (total : ℚ),
      noteDurationLoop beats subdivide sbl start_ts start_beat tempo_fn n i total =
        some (total + n * (60 / v * sbl)) := by
  intro n
  induction n with
  | zero => intro i total; simp [noteDurationLoop]
  | succ n ih =>
    intro i total
    rw [noteDurationLoop]
    simp only [htf, if_neg hv, ih]
    congr 1
    push_cast
    ring

/-- Claim C3 (amended): under a constant tempo of `v > 0` bpm, for a note of
`beats > 0` beats such that the subdivision count `100 * beats` is a whole
number, the note-duration integrator returns exactly `beats * 60 / v`
seconds.  (Without the wholeness condition the subdivision count is
truncated and the result falls short of `beats * 60 / v`; see
`triplet_note_duration_cex`.) -/
theorem constant_tempo_note_duration (beats v start_ts start_beat : ℚ)
    (hb : 0 < beats) (hv : 0 < v) (hwhole : (100 * beats).den = 1) :
    ComputeNoteDuration beats start_ts start_beat (FIXED_TEMPO v) = some (beats * 60 / v) := by
  have hsub : (100 : ℚ) * beats ≠ 0 := by positivity
  have h0 : (0 : ℚ) ≤ 100 * beats := by positivity
  have h4 : (0 : ℤ) ≤ ⌊(100 : ℚ) * beats⌋ := Int.floor_nonneg.mpr h0
  have hnum : (((100 * beats : ℚ).num : ℤ) : ℚ) = 100 * beats := (Rat.den_eq_one_iff _).mp hwhole
  have h3 : ((⌊(100 : ℚ) * beats⌋ : ℤ) : ℚ) = 100 * beats := by
    have hfl : ⌊(100 : ℚ) * beats⌋ = (100 * beats : ℚ).num := by
      conv_lhs => rw [← hnum]
      exact Int.floor_intCast _
    rw [hfl, hnum]
  simp only [ComputeNoteDuration, if_neg hsub]
  rw [noteDurationLoop_const beats _ _ start_ts start_beat v (FIXED_TEMPO v)
    (fun a b => rfl) (ne_of_gt hv)]
  have h5 : (((pyInt (100 * beats)).toNat : ℕ) : ℚ) = 100 * beats := by
    rw [pyInt, if_pos h0]
    calc ((⌊(100:ℚ) * beats⌋.toNat : ℕ) : ℚ)
        = ((⌊(100:ℚ) * beats⌋.toNat : ℤ) : ℚ) := by push_cast; ring
      _ = 100 * beats := by rw [Int.toNat_of_nonneg h4]; exact h3
  rw [h5]
  congr 1
  field_simp
  ring

/-- Claim C3, witness for the amended theorem: a quarter note (1 beat) at a
constant 120 bpm takes `1 * 60 / 120 = 0.5` seconds. -/
theorem constant_tempo_note_duration_witness :
    ComputeNoteDuration 1 0 0 (FIXED_TEMPO 120) = some (1 * 60 / 120) :=
  constant_tempo_note_duration 1 120 0 0 (by norm_num) (by norm_num)
    (by norm_num [Rat.den_ofNat])

/-- Claim C3, counterexample: for a triplet eighth (`beats = 1/3`, a
positive beat count) at a constant 60 bpm, the integrator returns
`33/100` seconds — `int(100 * (1/3)) = 33` of the `100/3` subdivisions —
while the claim demands `(1/3) * 60 / 60 = 1/3` seconds; the shortfall
`1/300` is a systematic truncation error, not floating-point error. -/
theorem triplet_note_duration_cex :
    ComputeNoteDuration (TripletEighth false).GetBeats 0 0 (FIXED_TEMPO 60) = some (33 / 100) ∧
    (33 / 100 : ℚ) ≠ (TripletEighth false).GetBeats * 60 / 60 := by
  constructor
  · norm_num [Gesture.Generate, generateSteps, generateStep, stepCore, stepPlayers, normalizeStep,
    generatePlayersEvents, GenerateEventsForPlayer, ComputeNoteDuration, pyInt, Int.toNat_ofNat,
    noteDurationLoop, setInstrument, pyMax, listIndex, Duration, Beats, Note.GetBeats, Note.IsRest,
    Quarter, Half, TripletEighth, ArbitraryNote, REST, GetTimeAfterPlayer, FIXED_TEMPO,
    gestureRest, gestureIndexBeat, gestureGapProbe, gestureEmptyNotes, gestureQuarter]
  · norm_num [TripletEighth, Note.GetBeats]

/-- Claim C4, counterexample: for a zero-beat note the integrator does not
return `some 0`: the Python line `subdivision_beat_length = beats /
float(subdivide)` divides `0 / 0.0` and raises `ZeroDivisionError`
(modelled by `none`). -/
theorem zero_beat_note_cex :
    ComputeNoteDuration (ArbitraryNote 0 false).GetBeats 0 0 (FIXED_TEMPO 120) = none ∧
    ComputeNoteDuration (ArbitraryNote 0 false).GetBeats 0 0 (FIXED_TEMPO 120) ≠ some 0 := by
  have h : ComputeNoteDuration (ArbitraryNote 0 false).GetBeats 0 0 (FIXED_TEMPO 120) = none := by
    norm_num [ComputeNoteDuration, ArbitraryNote, Note.GetBeats]
  exact ⟨h, by rw [h]; simp⟩

/-- Claim C4 (amended): a zero-beat note makes the duration computation
fail with a division by zero (`beats / float(100 * beats)` with both sides
zero), under every tempo function and every starting cursor — the
degenerate case is not handled locally and no zero result is returned. -/
theorem zero_beat_note_raises (start_ts start_beat : ℚ) (tempo_fn : ℚ → ℚ → ℚ) :
    ComputeNoteDuration 0 start_ts start_beat tempo_fn = none := by
  simp [ComputeNoteDuration]

/-- Claim C1 (amended): every note of a player's sequence — rest or not —
materializes as exactly one `Event`, in order, whose `is_rest` flag equals
the note's rest status; a rest note advances the time/beat cursors like a
sounding note but is still appended to the returned event list (it is only
the HTML renderer that skips rest events). -/
theorem rest_notes_materialize (player : ℕ) (notes : List Note) (start_ts start_beat : ℚ)
    (tempo_fn : ℚ → ℚ → ℚ) (events : List Event)
    (h : GenerateEventsForPlayer player notes start_ts start_beat tempo_fn = some events) :
    events.map Event.is_rest = notes.map Note.IsRest := by
  induction notes generalizing start_ts start_beat events with
  | nil =>
    rw [GenerateEventsForPlayer] at h
    cases h
    rfl
  | cons note notes ih =>
    rw [GenerateEventsForPlayer] at h
    split at h
    · exact absurd h (by simp)
    · split at h
      · exact absurd h (by simp)
      · rename_i d hd evs hr
        injection h with h2
        subst h2
        simp [ih _ _ _ hr]

/-- Claim C1, witness: a single quarter rest generates a single event whose
rest flag is set. -/
theorem rest_notes_materialize_witness :
    [Event.mk 0 "" 0 1 true].map Event.is_rest = [Quarter REST].map Note.IsRest :=
  rest_notes_materialize 0 [Quarter REST] 0 0 (FIXED_TEMPO 60) [Event.mk 0 "" 0 1 true]
    (by norm_num [Gesture.Generate, generateSteps, generateStep, stepCore, stepPlayers, normalizeStep,
    generatePlayersEvents, GenerateEventsForPlayer, ComputeNoteDuration, pyInt, Int.toNat_ofNat,
    noteDurationLoop, setInstrument, pyMax, listIndex, Duration, Beats, Note.GetBeats, Note.IsRest,
    Quarter, Half, TripletEighth, ArbitraryNote, REST, GetTimeAfterPlayer, FIXED_TEMPO,
    gestureRest, gestureIndexBeat, gestureGapProbe, gestureEmptyNotes, gestureQuarter])

/-- Claim C1, counterexample: scheduling a gesture whose only note is a
quarter rest returns a list that does contain an `Event` for the rest note
(flagged `is_rest = true`), contradicting the claim that rest notes do not
materialize as Events in the scheduler output. -/
theorem rest_note_in_generate_cex :
    Gesture.Generate gestureRest 1 1 (FIXED_TEMPO 60) 0 = some [Event.mk 0 "drum" 0 1 true] ∧
    ((Gesture.Generate gestureRest 1 1 (FIXED_TEMPO 60) 0).getD []).any Event.is_rest = true := by
  have h : Gesture.Generate gestureRest 1 1 (FIXED_TEMPO 60) 0 =
      some [Event.mk 0 "drum" 0 1 true] := by
    norm_num [Gesture.Generate, generateSteps, generateStep, stepCore, stepPlayers, normalizeStep,
    generatePlayersEvents, GenerateEventsForPlayer, ComputeNoteDuration, pyInt, Int.toNat_ofNat,
    noteDurationLoop, setInstrument, pyMax, listIndex, Duration, Beats, Note.GetBeats, Note.IsRest,
    Quarter, Half, TripletEighth, ArbitraryNote, REST, GetTimeAfterPlayer, FIXED_TEMPO,
    gestureRest, gestureIndexBeat, gestureGapProbe, gestureEmptyNotes, gestureQuarter]
  exact ⟨h, by rw [h]; rfl⟩

/-- Claim C2: evaluation of the scheduler barrier at a failing input.  The
step's only player is player 1, whose notes span 1 beat (one quarter), so
the claim says the beat cursor advances by 1; but line 342 of the source
advances it by `Beats(notes(step, max_index))` with `max_index = 0` (the
positional index of the longest player), i.e. by the 2 beats of player 0's
half note — a player that is not even part of the step.  The time cursor
does advance by the maximal span, 1 second. -/
theorem beat_cursor_uses_index_eval :
    stepCore gestureIndexBeat (FIXED_TEMPO 60) [1] 0 0 0 =
      some ([[Event.mk 1 "" 0 1 false]], 0, 1, Beats (gestureIndexBeat.notes 0 0)) ∧
    Beats (gestureIndexBeat.notes 0 0) = 2 ∧
    Beats (gestureIndexBeat.notes 0 1) = 1 := by
  refine ⟨?_, ?_, ?_⟩
  · norm_num [Gesture.Generate, generateSteps, generateStep, stepCore, stepPlayers, normalizeStep,
    generatePlayersEvents, GenerateEventsForPlayer, ComputeNoteDuration, pyInt, Int.toNat_ofNat,
    noteDurationLoop, setInstrument, pyMax, listIndex, Duration, Beats, Note.GetBeats, Note.IsRest,
    Quarter, Half, TripletEighth, ArbitraryNote, REST, GetTimeAfterPlayer, FIXED_TEMPO,
    gestureRest, gestureIndexBeat, gestureGapProbe, gestureEmptyNotes, gestureQuarter]
  · norm_num [gestureIndexBeat, Beats, Note.GetBeats, Half]
  · norm_num [gestureIndexBeat, Beats, Note.GetBeats, Quarter]

/-- Claim C5: evaluation of the inter-player gap call at a failing input.
With a step starting at `t = 10`, the longest player's span is the quarter
note of duration 1 (events `10 → 11`), so the claim says the gap function
receives the duration 1 and the cursor becomes `11 + gap(0, 1) = 12`; but
line 350 of the source passes `events_for_players[max_index][-1].stop`,
the absolute stop time 11, so with the probe gap function (which returns
its second argument) the cursor becomes `11 + 11 = 22`. -/
theorem gap_receives_stop_not_duration_eval :
    generateStep gestureGapProbe (FIXED_TEMPO 60) [PlayerStep.one 0] 0 10 0 =
      some ([Event.mk 0 "" 10 11 false], 22, 1) ∧
    Duration [Event.mk 0 "" 10 11 false] = 1 ∧
    gestureGapProbe.time_between_players 0 (Event.mk 0 "" 10 11 false).stop = 11 ∧
    (22 : ℚ) ≠ 11 + Duration [Event.mk 0 "" 10 11 false] := by
  refine ⟨?_, ?_, ?_, ?_⟩
  · norm_num [Gesture.Generate, generateSteps, generateStep, stepCore, stepPlayers, normalizeStep,
    generatePlayersEvents, GenerateEventsForPlayer, ComputeNoteDuration, pyInt, Int.toNat_ofNat,
    noteDurationLoop, setInstrument, pyMax, listIndex, Duration, Beats, Note.GetBeats, Note.IsRest,
    Quarter, Half, TripletEighth, ArbitraryNote, REST, GetTimeAfterPlayer, FIXED_TEMPO,
    gestureRest, gestureIndexBeat, gestureGapProbe, gestureEmptyNotes, gestureQuarter]
  · norm_num [Duration]
  · norm_num [gestureGapProbe]
  · norm_num [Duration]

/-- Claim C6, counterexample: resolving an unregistered play id through the
duration resolver fails with a bare `KeyError` — a fatal failure, but not
the descriptive user-facing diagnostic path the claim asserts for all
three resolvers. -/
theorem resolver_without_diagnostic_cex :
    isUserExit (DURATION_OF [] "intro") = false ∧
    DURATION_OF [] "intro" = Except.error (PyError.keyError "intro") := by
  constructor <;> rfl

/-- Claim C6 (amended): on an unregistered play id, none of the three
resolvers silently returns a default — the end-time resolver
(`WHEN_DONE_PLAYING`) exits with a descriptive user-facing diagnostic,
while the start-time (`AT_THE_SAME_TIME_AS`) and duration (`DURATION_OF`)
resolvers fail with an uncaught `KeyError` carrying no such diagnostic. -/
theorem resolvers_fail_on_missing_id (gesture_infos : GestureInfos) (play_id : String)
    (h : gesture_infos.lookup play_id = none) :
    isUserExit (WHEN_DONE_PLAYING gesture_infos play_id) = true ∧
    AT_THE_SAME_TIME_AS gesture_infos play_id = Except.error (PyError.keyError play_id) ∧
    DURATION_OF gesture_infos play_id = Except.error (PyError.keyError play_id) := by
  refine ⟨?_, ?_, ?_⟩ <;>
    simp [WHEN_DONE_PLAYING, AT_THE_SAME_TIME_AS, DURATION_OF, h, isUserExit]

/-- Claim C6, witness: the three resolvers on an empty registry. -/
theorem resolvers_fail_on_missing_id_witness :
    isUserExit (WHEN_DONE_PLAYING [] "intro") = true ∧
    AT_THE_SAME_TIME_AS [] "intro" = Except.error (PyError.keyError "intro") ∧
    DURATION_OF [] "intro" = Except.error (PyError.keyError "intro") :=
  resolvers_fail_on_missing_id [] "intro" rfl

/-- Claim C7: registering a gesture play with an identifier already present
in the registry fails fatally with a user-facing diagnostic; an empty
identifier is replaced by the auto-generated
`"unnamed_gesture_play_<N>"` with `N` the current registry size; and on
success the registry gains a record with `start_time` = the first event's
start, `duration` = the `Duration` of the event list, and `end_time` =
start + duration. -/
theorem play_gesture_registry (num_players : ℕ) (gesture_infos : GestureInfos)
    (g : Gesture) (start_time : ℚ) (player_steps : ℕ) (tempo : ℚ → ℚ → ℚ) (play_id : String) :
    ((gesture_infos.lookup (effectivePlayId gesture_infos play_id)).isSome = true →
      isUserExit (PLAY_GESTURE num_players gesture_infos g start_time player_steps tempo
        play_id) = true) ∧
    effectivePlayId gesture_infos "" =
      "unnamed_gesture_play_" ++ toString gesture_infos.length ∧
    (∀ (e0 : Event) (es : List Event),
      gesture_infos.lookup (effectivePlayId gesture_infos play_id) = none →
      g.Generate num_players player_steps tempo start_time = some (e0 :: es) →
      PLAY_GESTURE num_players gesture_infos g start_time player_steps tempo play_id =
        Except.ok (gesture_infos ++ [(effectivePlayId gesture_infos play_id,
          GestureInfo.mk e0.start (e0.start + Duration (e0 :: es)) (Duration (e0 :: es)))])) := by
  refine ⟨?_, rfl, ?_⟩
  · intro h
    simp [PLAY_GESTURE, h, isUserExit]
  · intro e0 es hmiss hgen
    simp [PLAY_GESTURE, hmiss, hgen]

/-- Claim C7, witness: a duplicate play id `"x"` exits fatally, and a fresh
registration of a one-quarter-note gesture records
`start = 0, end = 0 + 1, duration = 1`. -/
theorem play_gesture_registry_witness :
    isUserExit (PLAY_GESTURE 1 [("x", GestureInfo.mk 0 1 1)] gestureQuarter 0 1
      (FIXED_TEMPO 60) "x") = true ∧
    PLAY_GESTURE 1 [] gestureQuarter 0 1 (FIXED_TEMPO 60) "x" =
      Except.ok [("x", GestureInfo.mk 0 1 1)] := by
  have hx : ¬ ("x" : String) = "" := by decide
  constructor
  · exact (play_gesture_registry 1 [("x", GestureInfo.mk 0 1 1)] gestureQuarter 0 1
      (FIXED_TEMPO 60) "x").1 (by simp [effectivePlayId, hx, List.lookup])
  · have h := (play_gesture_registry 1 [] gestureQuarter 0 1 (FIXED_TEMPO 60) "x").2.2
      (Event.mk 0 "g" 0 1 false) []
      (by simp [effectivePlayId, hx, List.lookup])
      (by norm_num [Gesture.Generate, generateSteps, generateStep, stepCore, stepPlayers, normalizeStep,
    generatePlayersEvents, GenerateEventsForPlayer, ComputeNoteDuration, pyInt, Int.toNat_ofNat,
    noteDurationLoop, setInstrument, pyMax, listIndex, Duration, Beats, Note.GetBeats, Note.IsRest,
    Quarter, Half, TripletEighth, ArbitraryNote, REST, GetTimeAfterPlayer, FIXED_TEMPO,
    gestureRest, gestureIndexBeat, gestureGapProbe, gestureEmptyNotes, gestureQuarter])
    simpa [effectivePlayId, hx, Duration] using h

/-- Claim C8, counterexample: a step in which every player (here the only
player) has an empty note sequence makes the scheduler fail — Python
raises `IndexError` at `events_for_players[max_index][-1]` on line 350 —
instead of completing the step. -/
theorem all_empty_step_cex :
    Gesture.Generate gestureEmptyNotes 1 1 (FIXED_TEMPO 60) 0 = none := by
  norm_num [Gesture.Generate, generateSteps, generateStep, stepCore, stepPlayers, normalizeStep,
    generatePlayersEvents, GenerateEventsForPlayer, ComputeNoteDuration, pyInt, Int.toNat_ofNat,
    noteDurationLoop, setInstrument, pyMax, listIndex, Duration, Beats, Note.GetBeats, Note.IsRest,
    Quarter, Half, TripletEighth, ArbitraryNote, REST, GetTimeAfterPlayer, FIXED_TEMPO,
    gestureRest, gestureIndexBeat, gestureGapProbe, gestureEmptyNotes, gestureQuarter]

/-- Claim C8 (amended): a player whose note sequence for a step is empty
contributes zero events and zero duration, and the step completes only as
long as the first maximal-duration player's event list is non-empty; when
it is empty (in particular when every player of the step has an empty note
sequence) the scheduler fails at `events_for_players[max_index][-1]`. -/
theorem empty_note_lists_in_steps :
    (∀ (player : ℕ) (start_ts start_beat : ℚ) (tempo_fn : ℚ → ℚ → ℚ),
      GenerateEventsForPlayer player [] start_ts start_beat tempo_fn = some [] ∧
      Duration [] = 0) ∧
    (∀ (g : Gesture) (tempo_fn : ℚ → ℚ → ℚ) (p0 : PlayerStep) (po : List PlayerStep)
      (step : ℕ) (start_ts start_beat : ℚ) (efps : List (List Event)) (mi : ℕ)
      (ts1 beat1 : ℚ),
      stepCore g tempo_fn (stepPlayers (p0 :: po) step) step start_ts start_beat =
        some (efps, mi, ts1, beat1) →
      efps.getD mi [] = [] →
      generateStep g tempo_fn (p0 :: po) step start_ts start_beat = none) := by
  constructor
  · intro player start_ts start_beat tempo_fn
    exact ⟨rfl, rfl⟩
  · intro g tempo_fn p0 po step start_ts start_beat efps mi ts1 beat1 hcore hempty
    rw [generateStep, hcore]
    dsimp only
    rw [hempty]
    rfl

/-- Claim C8, witness: an empty note list yields zero events, and the
all-empty gesture's step fails. -/
theorem empty_note_lists_in_steps_witness :
    GenerateEventsForPlayer 5 [] 3 2 (FIXED_TEMPO 60) = some [] ∧
    generateStep gestureEmptyNotes (FIXED_TEMPO 60) [PlayerStep.one 0] 0 0 0 = none :=
  ⟨(empty_note_lists_in_steps.1 5 3 2 (FIXED_TEMPO 60)).1,
   empty_note_lists_in_steps.2 gestureEmptyNotes (FIXED_TEMPO 60) (PlayerStep.one 0) [] 0 0 0
     [[]] 0 0 0 (by norm_num [Gesture.Generate, generateSteps, generateStep, stepCore, stepPlayers, normalizeStep,
    generatePlayersEvents, GenerateEventsForPlayer, ComputeNoteDuration, pyInt, Int.toNat_ofNat,
    noteDurationLoop, setInstrument, pyMax, listIndex, Duration, Beats, Note.GetBeats, Note.IsRest,
    Quarter, Half, TripletEighth, ArbitraryNote, REST, GetTimeAfterPlayer, FIXED_TEMPO,
    gestureRest, gestureIndexBeat, gestureGapProbe, gestureEmptyNotes, gestureQuarter]) rfl⟩

/-- Claim C9: `Duration` of an empty event list is `0`; of a one-event list
is that event's stop minus start; and of any list with a first element `a`
and a last element `b` it is `b.stop - a.start`, regardless of what lies
between. -/
theorem duration_of_event_lists :
    Duration [] = 0 ∧
    (∀ e : Event, Duration [e] = e.stop - e.start) ∧
    (∀ (l : List Event) (a b : Event), l.head? = some a → l.getLast? = some b →
      Duration l = b.stop - a.start) := by
  refine ⟨rfl, fun e => rfl, ?_⟩
  intro l a b ha hb
  match l with
  | [] => cases ha
  | [e] =>
    simp at ha hb
    subst ha
    subst hb
    rfl
  | e :: f :: es =>
    simp at ha
    subst ha
    have hb2 : (f :: es).getLast? = some b := by
      simpa [List.getLast?_cons_cons] using hb
    simp [Duration, List.getLastD_eq_getLast?, hb2]

/-- Claim C9, witness: a three-event list with gaps between the events. -/
theorem duration_of_event_lists_witness :
    Duration [Event.mk 0 "" 0 1 false, Event.mk 0 "" 5 6 false, Event.mk 1 "" 8 9 false] =
      (Event.mk 1 "" 8 9 false).stop - (Event.mk 0 "" 0 1 false).start :=
  duration_of_event_lists.2.2
    [Event.mk 0 "" 0 1 false, Event.mk 0 "" 5 6 false, Event.mk 1 "" 8 9 false]
    (Event.mk 0 "" 0 1 false) (Event.mk 1 "" 8 9 false) rfl rfl

/-- Claim C10: `SINGLE_PLAYER(p)` defines its inner player function but
never returns it, so for every player id it returns `None` rather than a
player-order function — a gesture configured with it has no player order
to resolve. -/
theorem single_player_returns_none : ∀ player : ℕ, SINGLE_PLAYER player = none :=
  fun _ => rfl
